import Mathlib

/-!
Verification of the `take_mut` crate against its specification.

The embedding is a shallow one.  Rust closures may capture mutable state and
may fail, so a closure of Rust type `FnOnce(T) -> T` is embedded as a function
`T → σ → CResult T × σ`: `σ` is the captured environment (threaded explicitly),
and the result of a call is either a normal value, a panic (an unwind carrying
a message), or a process exit with a status code (a nested call may have
terminated the process, and `std::process::exit` neither unwinds nor returns).
Storage locations (`&mut T`) are embedded as explicitly threaded values: an
operation on a location receives the location's current content and its result
carries the content the operation leaves behind.
-/

/-- A Rust panic payload (the message passed to `panic!`). -/
inductive Panic : Type where
  | msg (s : String)
deriving DecidableEq, Repr

/-- Outcome of running a piece of Rust code: it returns a value `r`, it
panics (unwinds) with payload `p`, or the process was terminated with exit
status `code` somewhere inside it (`std::process::exit` does not return and
does not unwind, so termination propagates through every enclosing frame). -/
inductive CResult (R : Type) : Type where
  | ok (r : R)
  | panicked (p : Panic)
  | exited (code : Int)
deriving DecidableEq, Repr

/-- Embedding of `exit_on_panic` (src/exit_on_panic.rs).  The Rust code arms an
`ExitOnSuddenDrop` guard, runs `f`, and disarms the guard on normal return.
If `f` unwinds, the guard's `Drop` runs with `finished == false` and calls
`std::process::exit(-1)`; if `f` itself already exited the process, nothing
more runs and the inner exit status stands.  The effectful body `f` acts on an
environment `σ`; on normal return the result pairs `f`'s value with the final
environment. -/
def exit_on_panic {σ R : Type} (f : σ → CResult R × σ) (s : σ) : CResult (R × σ) :=
  match f s with
  | (CResult.ok r, s2) => CResult.ok (r, s2)
  | (CResult.panicked _, _) => CResult.exited (-1)
  | (CResult.exited c, _) => CResult.exited c

/-- Embedding of `take` (src/lib.rs).  Inside `exit_on_panic`:
`old_t = ptr::read(mut_ref); new_t = closure(old_t); ptr::write(mut_ref, new_t)`.
`v` is the location's content on entry; a normal result `ok (new_t, s2)` means
the process survived, the location now holds `new_t`, and the closure's
captured environment ended as `s2`. -/
def take {σ T : Type} (v : T) (closure : T → σ → CResult T × σ) (s : σ) :
    CResult (T × σ) :=
  exit_on_panic (fun s0 => closure v s0) s

/-- C1: on a location holding `v` and a computation that returns normally,
`take` leaves the location holding exactly the computation's result: `f v` in
general, `v` for the identity computation, `w` for the constant-`w`
computation.  The removed value is consumed exactly once: instrumenting an
arbitrary computation `g` with a call counter in its captured environment
shows the counter advances from `0` to exactly `1`. -/
theorem take_success_spec :
    ∀ (T : Type) (v : T) (f : T → T),
      take v (fun t (u : Unit) => (CResult.ok (f t), u)) () = CResult.ok (f v, ()) ∧
      take v (fun t (u : Unit) => (CResult.ok t, u)) () = CResult.ok (v, ()) ∧
      (∀ w : T, take v (fun _ (u : Unit) => (CResult.ok w, u)) () = CResult.ok (w, ())) ∧
      (∀ g : T → T,
        take v (fun t (calls : Nat) => (CResult.ok (g t), calls + 1)) 0 =
          CResult.ok (g v, 1)) := by
  intro T v f
  refine ⟨rfl, rfl, fun w => rfl, fun g => rfl⟩

/-- C2: if the computation panics after the old value was removed and before a
replacement was installed, `take` terminates the process with exit status `-1`
(nonzero) instead of returning: the outcome is `exited (-1)`, which carries no
location content, so the caller never observes the location. -/
theorem take_panic_exits_process :
    ∀ (σ T : Type) (v : T) (closure : T → σ → CResult T × σ) (s : σ)
      (p : Panic) (s2 : σ),
      closure v s = (CResult.panicked p, s2) →
      take v closure s = CResult.exited (-1) ∧ (-1 : Int) ≠ 0 := by
  intro σ T v closure s p s2 h
  constructor
  · simp [take, exit_on_panic, h]
  · decide

/-- Witness for C2 at a concrete input: a computation on a `Nat` location that
drops the value and panics. -/
theorem take_panic_exits_process_witness :
    take (5 : Nat) (fun _ (u : Unit) => (CResult.panicked (Panic.msg "boom"), u)) () =
      CResult.exited (-1) ∧ (-1 : Int) ≠ 0 :=
  take_panic_exits_process Unit Nat 5
    (fun _ u => (CResult.panicked (Panic.msg "boom"), u)) () (Panic.msg "boom") () rfl

/-!
Scoped take (src/scoped.rs).  A `Scope` owns a `Cell<usize>` counting the
currently unfilled holes; a `Hole` records the location it must refill, a
reference to that counter, and an `Option` holding its recovery closure.  The
counter together with the contents of the locations a scope may touch is
embedded as an explicit state `ScopeSt`: locations are indexed by `Nat` and
all hold values of one type `T`.  `usize` arithmetic is embedded as `Nat` with
the source's explicit guard against `usize::MAX` (64-bit target). -/

def USIZE_MAX : Nat := 2 ^ 64 - 1

/-- The state a `Scope` acts on: the scope's `active_holes` cell and the
contents of the locations (indexed by `Nat`). -/
structure ScopeSt (T : Type) : Type where
  active_holes : Nat
  mem : Nat → T

/-- Embedding of a `Hole` value: the index of its bound location (`hole:
&'m mut T`) and its `recovery: Option<F>` field.  The back-reference to the
scope's counter is implicit: hole operations act on the owning scope's
`ScopeSt`.  A recovery closure `FnOnce() -> T` may itself panic, so it is
embedded as `Unit → CResult T`. -/
structure HoleInfo (T : Type) : Type where
  loc : Nat
  recovery : Option (Unit → CResult T)

/-- Embedding of `Scope::take_and_recover`.  The source checks the counter
against `usize::MAX` and panics with "Too many holes!" (leaving the cell
untouched); otherwise it increments the counter, reads the location, and
returns the read value with a hole whose `recovery` field is
`Some(recovery)`.  A panic outcome carries no successor state: the state is
unchanged. -/
def Scope.take_and_recover {T : Type} (st : ScopeSt T) (l : Nat)
    (recovery : Unit → CResult T) : CResult (T × HoleInfo T × ScopeSt T) :=
  if st.active_holes = USIZE_MAX then
    CResult.panicked (Panic.msg "Too many holes!")
  else
    CResult.ok (st.mem l, { loc := l, recovery := some recovery },
      { active_holes := st.active_holes + 1, mem := st.mem })

/-- The local `fn panic<T>() -> T` that `Scope::take` installs as the default
recovery closure: it unconditionally panics. -/
def defaultHoleRecovery (T : Type) : Unit → CResult T :=
  fun _ => CResult.panicked (Panic.msg "Failed to recover a Hole!")

/-- Embedding of `Scope::take`: `take_and_recover` with the panicking default
recovery closure. -/
def Scope.take {T : Type} (st : ScopeSt T) (l : Nat) :
    CResult (T × HoleInfo T × ScopeSt T) :=
  Scope.take_and_recover st l (defaultHoleRecovery T)

/-- Embedding of `Hole::fill`: `ptr::write(self.hole, t)`, decrement the
scope's counter, `mem::forget(self)` (so the destructor of the hole will not
run; in the lifecycle model below a filled hole simply has no further
effect). -/
def Hole.fill {T : Type} (h : HoleInfo T) (t : T) (st : ScopeSt T) : ScopeSt T :=
  { active_holes := st.active_holes - 1,
    mem := fun n => if n = h.loc then t else st.mem n }

/-- The body of the `Some` branch of `Hole`'s `Drop` impl: call the recovery
closure, write its result into the bound location, decrement the counter.  A
panic from the recovery closure propagates out of `drop`. -/
def Hole.dropWithRecovery {T : Type} (r : Unit → CResult T) (l : Nat)
    (st : ScopeSt T) : CResult (ScopeSt T) :=
  match r () with
  | CResult.ok t =>
      CResult.ok { active_holes := st.active_holes - 1,
                   mem := fun n => if n = l then t else st.mem n }
  | CResult.panicked p => CResult.panicked p
  | CResult.exited c => CResult.exited c

/-- Embedding of `Hole`'s `Drop` impl:
`(self.recovery.take().expect("No recovery function in Hole!"))()` followed by
the write and the decrement.  If the `recovery` field is `None`, the `expect`
panics. -/
def Hole.dropHole {T : Type} (h : HoleInfo T) (st : ScopeSt T) :
    CResult (ScopeSt T) :=
  match h.recovery with
  | none => CResult.panicked (Panic.msg "No recovery function in Hole!")
  | some r => Hole.dropWithRecovery r h.loc st

/-- The fate of a hole.  Rust's consuming semantics (`fill(self, ..)` takes
the hole by value and `mem::forget`s it, and otherwise the destructor runs
exactly once) mean every hole is discharged exactly once, either by an
explicit `fill` or by its destructor; `HoleFate` records which. -/
inductive HoleFate (T : Type) : Type where
  | filled (t : T)
  | dropped

/-- The single discharge a hole performs on its scope's state, determined by
its fate: a filled hole performs `Hole::fill`, a dropped hole performs the
`Drop` impl. -/
def Hole.discharge {T : Type} (h : HoleInfo T) (fate : HoleFate T)
    (st : ScopeSt T) : CResult (ScopeSt T) :=
  match fate with
  | HoleFate.filled t => CResult.ok (Hole.fill h t st)
  | HoleFate.dropped => Hole.dropHole h st

/-- Outcome of `scope`: the body's result is returned (`ok`), the body's
panic is re-raised by `resume_unwind` (`panicked`), the process was aborted
by the unfilled-hole check (`aborted`), or the body terminated the process
itself (`exited`). -/
inductive ScopeOutcome (R T : Type) : Type where
  | ok (r : R) (st : ScopeSt T)
  | panicked (p : Panic) (st : ScopeSt T)
  | aborted
  | exited (code : Int)

/-- Embedding of `scope` (src/scoped.rs).  A fresh scope starts with
`active_holes == 0`; the body runs under `catch_unwind`, so both a normal
return and a panic reach the check `if this.active_holes.get() != 0 {
std::process::abort(); }`; only then is the body's result returned or its
panic resumed.  If the body exited the process, control never reaches the
check.  The body is an effectful function on the scope state: it returns its
`CResult` and the state (counter and memory) at the moment its dynamic extent
ends — after any unwinding destructors have run. -/
def scope {R T : Type} (f : ScopeSt T → CResult R × ScopeSt T) (mem0 : Nat → T) :
    ScopeOutcome R T :=
  match f { active_holes := 0, mem := mem0 } with
  | (CResult.exited c, _) => ScopeOutcome.exited c
  | (CResult.ok r, st) =>
      if st.active_holes ≠ 0 then ScopeOutcome.aborted else ScopeOutcome.ok r st
  | (CResult.panicked p, st) =>
      if st.active_holes ≠ 0 then ScopeOutcome.aborted
      else ScopeOutcome.panicked p st

/-- C3: `scope` returns normally only if every hole created inside it was
filled.  If the unfilled-hole counter is nonzero when the body's extent ends
(whether the body returned or panicked), the process is aborted and the scope
never returns; if the counter is zero, the scope returns the body's result,
re-raising the body's panic when the body panicked. -/
theorem scope_balance_spec :
    ∀ (R T : Type) (f : ScopeSt T → CResult R × ScopeSt T) (mem0 : Nat → T),
      (∀ (r : R) (st : ScopeSt T), f { active_holes := 0, mem := mem0 } = (CResult.ok r, st) →
        (st.active_holes ≠ 0 → scope f mem0 = ScopeOutcome.aborted) ∧
        (st.active_holes = 0 → scope f mem0 = ScopeOutcome.ok r st)) ∧
      (∀ (p : Panic) (st : ScopeSt T),
        f { active_holes := 0, mem := mem0 } = (CResult.panicked p, st) →
        (st.active_holes ≠ 0 → scope f mem0 = ScopeOutcome.aborted) ∧
        (st.active_holes = 0 → scope f mem0 = ScopeOutcome.panicked p st)) := by
  intro R T f mem0
  constructor
  · intro r st h
    constructor
    · intro hne
      simp [scope, h, hne]
    · intro hz
      simp [scope, h, hz]
  · intro p st h
    constructor
    · intro hne
      simp [scope, h, hne]
    · intro hz
      simp [scope, h, hz]

/-- Witness for C3 at concrete inputs: a body that leaves one hole unfilled
makes the scope abort; a body that leaves the counter at zero returns its
result. -/
theorem scope_balance_spec_witness :
    scope (fun st => (CResult.ok (7 : Nat), { st with active_holes := 1 }))
        (fun _ => (0 : Nat)) = ScopeOutcome.aborted ∧
    scope (fun st => (CResult.ok (7 : Nat), st)) (fun _ => (0 : Nat)) =
      ScopeOutcome.ok 7 { active_holes := 0, mem := fun _ => 0 } :=
  ⟨((scope_balance_spec Nat Nat
        (fun st => (CResult.ok 7, { st with active_holes := 1 }))
        (fun _ => 0)).1 7 { active_holes := 1, mem := fun _ => 0 } rfl).1
      (by decide),
   ((scope_balance_spec Nat Nat (fun st => (CResult.ok 7, st)) (fun _ => 0)).1 7
        { active_holes := 0, mem := fun _ => 0 } rfl).2 rfl⟩

/-- C4: on a scope whose unfilled-hole counter is below `usize::MAX`, both
`Scope::take_and_recover` and `Scope::take` increment the counter by exactly
1 and return the value currently stored in the given location together with a
live hole bound to that location (its `recovery` field is present); memory is
untouched.  If the counter is already at `usize::MAX`, the call panics
("Too many holes!") and the state is unchanged (the panic outcome carries no
successor state). -/
theorem scope_take_counter_spec :
    ∀ (T : Type) (st : ScopeSt T) (l : Nat) (recovery : Unit → CResult T),
      (st.active_holes < USIZE_MAX →
        Scope.take_and_recover st l recovery =
          CResult.ok (st.mem l, { loc := l, recovery := some recovery },
            { active_holes := st.active_holes + 1, mem := st.mem }) ∧
        Scope.take st l =
          CResult.ok (st.mem l, { loc := l, recovery := some (defaultHoleRecovery T) },
            { active_holes := st.active_holes + 1, mem := st.mem })) ∧
      (st.active_holes = USIZE_MAX →
        Scope.take_and_recover st l recovery =
          CResult.panicked (Panic.msg "Too many holes!") ∧
        Scope.take st l = CResult.panicked (Panic.msg "Too many holes!")) := by
  intro T st l recovery
  constructor
  · intro hlt
    have hne : st.active_holes ≠ USIZE_MAX := Nat.ne_of_lt hlt
    exact ⟨by simp [Scope.take_and_recover, hne],
      by simp [Scope.take, Scope.take_and_recover, hne]⟩
  · intro heq
    exact ⟨by simp [Scope.take_and_recover, heq],
      by simp [Scope.take, Scope.take_and_recover, heq]⟩

/-- Witness for C4 at concrete inputs: a scope with no outstanding holes and
memory constantly `9`, and a scope whose counter sits at `usize::MAX`. -/
theorem scope_take_counter_spec_witness :
    (Scope.take_and_recover { active_holes := 0, mem := fun _ => (9 : Nat) } 2
        (fun _ => CResult.ok 0) =
      CResult.ok (9, { loc := 2, recovery := some (fun _ => CResult.ok 0) },
        { active_holes := 1, mem := fun _ => 9 })) ∧
    (Scope.take_and_recover { active_holes := USIZE_MAX, mem := fun _ => (9 : Nat) } 2
        (fun _ => CResult.ok 0) =
      CResult.panicked (Panic.msg "Too many holes!")) :=
  ⟨((scope_take_counter_spec Nat { active_holes := 0, mem := fun _ => 9 } 2
        (fun _ => CResult.ok 0)).1 (by norm_num [USIZE_MAX])).1,
   ((scope_take_counter_spec Nat { active_holes := USIZE_MAX, mem := fun _ => 9 } 2
        (fun _ => CResult.ok 0)).2 rfl).1⟩

/-- C5: `Hole::fill value` writes `value` into the hole's bound location,
leaves every other location untouched, and decrements the scope's
unfilled-hole counter by exactly 1 (the hypothesis `0 <` counter holds for
any live hole, since creating it incremented the counter).  The fill never
invokes the recovery closure: its result does not depend on the `recovery`
field at all.  Discharge happens at most once: in the lifecycle model a hole
has exactly one `HoleFate`, and the fill fate performs exactly the `fill`
effect (`mem::forget` keeps the destructor from ever running afterwards). -/
theorem hole_fill_spec :
    ∀ (T : Type) (h : HoleInfo T) (t : T) (st : ScopeSt T),
      0 < st.active_holes →
      (Hole.fill h t st).mem h.loc = t ∧
      (∀ n, n ≠ h.loc → (Hole.fill h t st).mem n = st.mem n) ∧
      (Hole.fill h t st).active_holes + 1 = st.active_holes ∧
      (∀ r2 : Option (Unit → CResult T),
        Hole.fill { loc := h.loc, recovery := r2 } t st = Hole.fill h t st) ∧
      Hole.discharge h (HoleFate.filled t) st = CResult.ok (Hole.fill h t st) := by
  intro T h t st hpos
  refine ⟨by simp [Hole.fill], ?_, ?_, fun r2 => rfl, rfl⟩
  · intro n hn
    simp [Hole.fill, hn]
  · simp [Hole.fill]
    omega

/-- Witness for C5 at a concrete input: a live hole bound to location `1` in
a scope with one outstanding hole, filled with `42`. -/
theorem hole_fill_spec_witness :
    (Hole.fill { loc := 1, recovery := some (fun _ => CResult.ok 0) } (42 : Nat)
        { active_holes := 1, mem := fun _ => 9 }).mem 1 = 42 ∧
    (Hole.fill { loc := 1, recovery := some (fun _ => CResult.ok 0) } (42 : Nat)
        { active_holes := 1, mem := fun _ => 9 }).active_holes + 1 = 1 :=
  ⟨(hole_fill_spec Nat { loc := 1, recovery := some (fun _ => CResult.ok 0) } 42
      { active_holes := 1, mem := fun _ => 9 } (by decide)).1,
   (hole_fill_spec Nat { loc := 1, recovery := some (fun _ => CResult.ok 0) } 42
      { active_holes := 1, mem := fun _ => 9 } (by decide)).2.2.1⟩

/-- C6: a hole carrying recovery closure `r`, destroyed without `fill` having
been called, invokes `r`; when `r` produces `w`, the destructor writes `w`
into the hole's bound location (repairing it), leaves other locations
untouched, and decrements the scope's counter by exactly 1. -/
theorem hole_drop_recovers_spec :
    ∀ (T : Type) (l : Nat) (r : Unit → CResult T) (w : T) (st : ScopeSt T),
      r () = CResult.ok w →
      0 < st.active_holes →
      ∃ st2 : ScopeSt T,
        Hole.discharge { loc := l, recovery := some r } HoleFate.dropped st =
            CResult.ok st2 ∧
        st2.mem l = w ∧
        (∀ n, n ≠ l → st2.mem n = st.mem n) ∧
        st2.active_holes + 1 = st.active_holes := by
  intro T l r w st hr hpos
  refine ⟨{ active_holes := st.active_holes - 1,
            mem := fun n => if n = l then w else st.mem n }, ?_, by simp, ?_,
          by show st.active_holes - 1 + 1 = st.active_holes; omega⟩
  · simp [Hole.discharge, Hole.dropHole, Hole.dropWithRecovery, hr]
  · intro n hn
    simp [hn]

/-- Witness for C6 at a concrete input: a hole bound to location `0` with a
recovery closure producing `3`, dropped unfilled in a scope with one
outstanding hole. -/
theorem hole_drop_recovers_spec_witness :
    ∃ st2 : ScopeSt Nat,
      Hole.discharge { loc := 0, recovery := some (fun _ => CResult.ok 3) }
          HoleFate.dropped { active_holes := 1, mem := fun _ => 9 } =
        CResult.ok st2 ∧
      st2.mem 0 = 3 ∧
      (∀ n, n ≠ 0 → st2.mem n = (9 : Nat)) ∧
      st2.active_holes + 1 = 1 :=
  hole_drop_recovers_spec Nat 0 (fun _ => CResult.ok 3) 3
    { active_holes := 1, mem := fun _ => 9 } rfl (by decide)

/-- C9: holes are only ever constructed by `Scope::take_and_recover` (also on
behalf of `Scope::take`), and both set the `recovery` field to
`Some(recovery)`; `fill` forgets the hole so its destructor never runs after
a fill.  Consequently every hole whose destructor can run has a present
recovery closure, and the destructor then takes the `Some` branch: the
`expect("No recovery function in Hole!")` failure branch of `Drop` is
unreachable. -/
theorem hole_recovery_always_present :
    ∀ (T : Type) (st st2 : ScopeSt T) (l : Nat) (rec : Unit → CResult T)
      (t : T) (h : HoleInfo T),
      (Scope.take_and_recover st l rec = CResult.ok (t, h, st2) →
        h.recovery = some rec) ∧
      (Scope.take st l = CResult.ok (t, h, st2) →
        h.recovery = some (defaultHoleRecovery T)) ∧
      (∀ (r : Unit → CResult T) (st3 : ScopeSt T), h.recovery = some r →
        Hole.dropHole h st3 = Hole.dropWithRecovery r h.loc st3) := by
  intro T st st2 l rec t h
  refine ⟨?_, ?_, ?_⟩
  · intro hok
    by_cases hc : st.active_holes = USIZE_MAX
    · simp [Scope.take_and_recover, hc] at hok
    · simp [Scope.take_and_recover, hc] at hok
      obtain ⟨-, hh, -⟩ := hok
      rw [← hh]
  · intro hok
    by_cases hc : st.active_holes = USIZE_MAX
    · simp [Scope.take, Scope.take_and_recover, hc] at hok
    · simp [Scope.take, Scope.take_and_recover, hc] at hok
      obtain ⟨-, hh, -⟩ := hok
      rw [← hh]
  · intro r st3 hr
    simp [Hole.dropHole, hr]

/-- Witness for C9 at a concrete input: take location `0` from a fresh scope
with an explicit recovery closure; the hole records it and its destructor
runs the `Some` branch. -/
theorem hole_recovery_always_present_witness :
    ({ loc := 0, recovery := some (fun _ => CResult.ok (4 : Nat)) } :
        HoleInfo Nat).recovery = some (fun _ => CResult.ok 4) ∧
    Hole.dropHole
        ({ loc := 0, recovery := some (fun _ => CResult.ok (4 : Nat)) } : HoleInfo Nat)
        { active_holes := 1, mem := fun _ => 9 } =
      Hole.dropWithRecovery (fun _ => CResult.ok 4) 0
        { active_holes := 1, mem := fun _ => 9 } :=
  ⟨(hole_recovery_always_present Nat { active_holes := 0, mem := fun _ => 9 }
      { active_holes := 1, mem := fun _ => 9 } 0 (fun _ => CResult.ok 4) 9
      { loc := 0, recovery := some (fun _ => CResult.ok 4) }).1 rfl,
   (hole_recovery_always_present Nat { active_holes := 0, mem := fun _ => 9 }
      { active_holes := 1, mem := fun _ => 9 } 0 (fun _ => CResult.ok 4) 9
      { loc := 0, recovery := some (fun _ => CResult.ok 4) }).2.2
      (fun _ => CResult.ok 4) { active_holes := 1, mem := fun _ => 9 } rfl⟩

/-- C10: `Scope::take` binds the default recovery closure, which
unconditionally panics with "Failed to recover a Hole!".  A hole obtained
from plain `Scope::take` that is destroyed unfilled therefore never silently
repairs its location: its destructor raises that panic and never produces a
successor state (no value is installed). -/
theorem scope_take_default_recovery_panics :
    ∀ (T : Type) (st st2 : ScopeSt T) (l : Nat) (t : T) (h : HoleInfo T),
      Scope.take st l = CResult.ok (t, h, st2) →
      h.recovery = some (defaultHoleRecovery T) ∧
      (∀ st3 : ScopeSt T,
        Hole.dropHole h st3 =
          CResult.panicked (Panic.msg "Failed to recover a Hole!") ∧
        ∀ st4 : ScopeSt T, Hole.dropHole h st3 ≠ CResult.ok st4) := by
  intro T st st2 l t h hok
  have hrec : h.recovery = some (defaultHoleRecovery T) := by
    by_cases hc : st.active_holes = USIZE_MAX
    · simp [Scope.take, Scope.take_and_recover, hc] at hok
    · simp [Scope.take, Scope.take_and_recover, hc] at hok
      obtain ⟨-, hh, -⟩ := hok
      rw [← hh]
  refine ⟨hrec, ?_⟩
  intro st3
  constructor
  · simp [Hole.dropHole, hrec, Hole.dropWithRecovery, defaultHoleRecovery]
  · intro st4
    simp [Hole.dropHole, hrec, Hole.dropWithRecovery, defaultHoleRecovery]

/-- Witness for C10 at a concrete input: plain `Scope::take` of location `0`
from a fresh scope over `Nat` memory constantly `9`. -/
theorem scope_take_default_recovery_panics_witness :
    ({ loc := 0, recovery := some (defaultHoleRecovery Nat) } :
        HoleInfo Nat).recovery = some (defaultHoleRecovery Nat) ∧
    Hole.dropHole
        ({ loc := 0, recovery := some (defaultHoleRecovery Nat) } : HoleInfo Nat)
        { active_holes := 1, mem := fun _ => 9 } =
      CResult.panicked (Panic.msg "Failed to recover a Hole!") :=
  ⟨(scope_take_default_recovery_panics Nat { active_holes := 0, mem := fun _ => 9 }
      { active_holes := 1, mem := fun _ => 9 } 0 9
      { loc := 0, recovery := some (defaultHoleRecovery Nat) } rfl).1,
   ((scope_take_default_recovery_panics Nat { active_holes := 0, mem := fun _ => 9 }
      { active_holes := 1, mem := fun _ => 9 } 0 9
      { loc := 0, recovery := some (defaultHoleRecovery Nat) } rfl).2
      { active_holes := 1, mem := fun _ => 9 }).1⟩

/-- Outcome of `take_or_recover` as seen by its caller: a normal return with
the location's final content, a re-raised (propagated) failure together with
the repaired location content the caller can still observe, or process
termination. -/
inductive RecoverOutcome (T σ : Type) : Type where
  | normal (loc : T) (s : σ)
  | panicked (p : Panic) (loc : T) (s : σ)
  | exited (code : Int)
deriving DecidableEq

/-- Modelled from the spec: `take_or_recover(location, recovery, computation)`
is listed in the public surface (§6) and specified in §4.3, but the function
is absent from the src/ snapshot of the crate.  Success path identical to
`take`: the location ends holding the computation's result.  Failure path: the
location is repaired with `recovery()`'s result and the original failure is
re-raised to the caller (not swallowed).  If `recovery()` itself fails,
process termination is the only remaining option (§4.2, §4.3, §7). -/
def take_or_recover {σ T : Type} (v : T) (recovery : Unit → CResult T)
    (closure : T → σ → CResult T × σ) (s : σ) : RecoverOutcome T σ :=
  match closure v s with
  | (CResult.ok newT, s2) => RecoverOutcome.normal newT s2
  | (CResult.panicked p, s2) =>
      match recovery () with
      | CResult.ok w => RecoverOutcome.panicked p w s2
      | _ => RecoverOutcome.exited (-1)
  | (CResult.exited c, _) => RecoverOutcome.exited c

/-- C7: on success `take_or_recover` behaves exactly like `take` — the
location ends holding the computation's result, matching `take`'s outcome on
the same inputs.  When the computation fails, the location is left holding
the recovery closure's result `w` and the original failure `p` is propagated
to the caller rather than swallowed. -/
theorem take_or_recover_spec :
    ∀ (σ T : Type) (v : T) (closure : T → σ → CResult T × σ) (s : σ),
      (∀ (newT : T) (s2 : σ), closure v s = (CResult.ok newT, s2) →
        ∀ recovery : Unit → CResult T,
          take_or_recover v recovery closure s = RecoverOutcome.normal newT s2 ∧
          take v closure s = CResult.ok (newT, s2)) ∧
      (∀ (p : Panic) (s2 : σ) (w : T), closure v s = (CResult.panicked p, s2) →
        take_or_recover v (fun _ => CResult.ok w) closure s =
          RecoverOutcome.panicked p w s2) := by
  intro σ T v closure s
  constructor
  · intro newT s2 h recovery
    constructor
    · simp [take_or_recover, h]
    · simp [take, exit_on_panic, h]
  · intro p s2 w h
    simp [take_or_recover, h]

/-- Witness for C7 at concrete inputs: a successful doubling computation on a
location holding `3`, and a panicking computation whose failure leaves the
location holding the recovery value `7` while the panic propagates. -/
theorem take_or_recover_spec_witness :
    (take_or_recover (3 : Nat) (fun _ => CResult.ok 7)
        (fun t (u : Unit) => (CResult.ok (t + t), u)) () =
      RecoverOutcome.normal 6 () ∧
      take (3 : Nat) (fun t (u : Unit) => (CResult.ok (t + t), u)) () =
        CResult.ok (6, ())) ∧
    take_or_recover (3 : Nat) (fun _ => CResult.ok 7)
        (fun _ (u : Unit) => (CResult.panicked (Panic.msg "boom"), u)) () =
      RecoverOutcome.panicked (Panic.msg "boom") 7 () :=
  ⟨(take_or_recover_spec Unit Nat 3 (fun t u => (CResult.ok (t + t), u)) ()).1 6 ()
      rfl (fun _ => CResult.ok 7),
   (take_or_recover_spec Unit Nat 3
      (fun _ u => (CResult.panicked (Panic.msg "boom"), u)) ()).2
      (Panic.msg "boom") () 7 rfl⟩

/-!
The `take_multi!` macro (src/lib.rs).  For `k` locations the macro expands to
`take` on the first location whose closure calls `take_used_for_macros_(k-1)`
on the next location, and so on; each helper writes its location's new value
and passes the remaining replacement values back out to the enclosing level.
The helpers are identical to `take` except that the closure returns, next to
the location's new value, 1 to 4 moved-out values handed back to the caller.
A normal result `ok ((new_t, moved...), s2)` means the location now holds
`new_t` and the caller receives the moved values. -/

/-- Embedding of `take_used_for_macros_1` (src/lib.rs). -/
def take_used_for_macros_1 {σ T U : Type} (v : T)
    (closure : T → σ → CResult (T × U) × σ) (s : σ) : CResult ((T × U) × σ) :=
  exit_on_panic (fun s0 => closure v s0) s

/-- Embedding of `take_used_for_macros_2` (src/lib.rs). -/
def take_used_for_macros_2 {σ T U V : Type} (v : T)
    (closure : T → σ → CResult (T × U × V) × σ) (s : σ) :
    CResult ((T × U × V) × σ) :=
  exit_on_panic (fun s0 => closure v s0) s

/-- Embedding of `take_used_for_macros_3` (src/lib.rs). -/
def take_used_for_macros_3 {σ T U V W : Type} (v : T)
    (closure : T → σ → CResult (T × U × V × W) × σ) (s : σ) :
    CResult ((T × U × V × W) × σ) :=
  exit_on_panic (fun s0 => closure v s0) s

/-- Embedding of `take_used_for_macros_4` (src/lib.rs). -/
def take_used_for_macros_4 {σ T U V W X : Type} (v : T)
    (closure : T → σ → CResult (T × U × V × W × X) × σ) (s : σ) :
    CResult ((T × U × V × W × X) × σ) :=
  exit_on_panic (fun s0 => closure v s0) s

/-- Expansion of `take_multi!` on two locations (src/lib.rs): `take` on the
first location; its closure calls `take_used_for_macros_1` on the second with
a closure that runs the body and returns `(b2, b1)` — the second location's
new value plus the first's, handed back and installed by the outer `take`.
The body is the `k`-ary computation `f`; the captured environment of the
outer closure carries the second location's content. -/
def take_multi_2 {T1 T2 : Type} (v1 : T1) (v2 : T2)
    (f : T1 → T2 → CResult (T1 × T2)) : CResult (T1 × T2) :=
  take v1 (fun b1 (loc2 : T2) =>
    match take_used_for_macros_1 loc2 (fun b2 (u : Unit) =>
        (match f b1 b2 with
         | CResult.ok (n1, n2) => CResult.ok (n2, n1)
         | CResult.panicked p => CResult.panicked p
         | CResult.exited c => CResult.exited c, u)) () with
    | CResult.ok ((newL2, mv), _) => (CResult.ok mv, newL2)
    | CResult.panicked p => (CResult.panicked p, loc2)
    | CResult.exited c => (CResult.exited c, loc2)) v2

/-- Expansion of `take_multi!` on three locations (src/lib.rs): the two-slot
expansion whose body calls `take_used_for_macros_2` on the third location,
returning `(b3, b1, b2)` from the innermost closure and reassigning `b1`,
`b2` from the two moved-back values. -/
def take_multi_3 {T1 T2 T3 : Type} (v1 : T1) (v2 : T2) (v3 : T3)
    (f : T1 → T2 → T3 → CResult (T1 × T2 × T3)) : CResult (T1 × T2 × T3) :=
  take v1 (fun b1 (rest : T2 × T3) =>
    match take_used_for_macros_1 rest.1 (fun b2 (loc3 : T3) =>
        match take_used_for_macros_2 loc3 (fun b3 (u : Unit) =>
            (match f b1 b2 b3 with
             | CResult.ok (n1, n2, n3) => CResult.ok (n3, n1, n2)
             | CResult.panicked p => CResult.panicked p
             | CResult.exited c => CResult.exited c, u)) () with
        | CResult.ok ((newL3, t1, t2), _) => (CResult.ok (t2, t1), newL3)
        | CResult.panicked p => (CResult.panicked p, loc3)
        | CResult.exited c => (CResult.exited c, loc3)) rest.2 with
    | CResult.ok ((newL2, mv), newL3) => (CResult.ok mv, (newL2, newL3))
    | CResult.panicked p => (CResult.panicked p, rest)
    | CResult.exited c => (CResult.exited c, rest)) (v2, v3)

/-- Expansion of `take_multi!` on four locations (src/lib.rs). -/
def take_multi_4 {T1 T2 T3 T4 : Type} (v1 : T1) (v2 : T2) (v3 : T3) (v4 : T4)
    (f : T1 → T2 → T3 → T4 → CResult (T1 × T2 × T3 × T4)) :
    CResult (T1 × T2 × T3 × T4) :=
  take v1 (fun b1 (rest : T2 × T3 × T4) =>
    match take_used_for_macros_1 rest.1 (fun b2 (rest2 : T3 × T4) =>
        match take_used_for_macros_2 rest2.1 (fun b3 (loc4 : T4) =>
            match take_used_for_macros_3 loc4 (fun b4 (u : Unit) =>
                (match f b1 b2 b3 b4 with
                 | CResult.ok (n1, n2, n3, n4) => CResult.ok (n4, n1, n2, n3)
                 | CResult.panicked p => CResult.panicked p
                 | CResult.exited c => CResult.exited c, u)) () with
            | CResult.ok ((newL4, q1, q2, q3), _) => (CResult.ok (q3, q1, q2), newL4)
            | CResult.panicked p => (CResult.panicked p, loc4)
            | CResult.exited c => (CResult.exited c, loc4)) rest2.2 with
        | CResult.ok ((newL3, p1, p2), newL4) => (CResult.ok (p2, p1), (newL3, newL4))
        | CResult.panicked p => (CResult.panicked p, rest2)
        | CResult.exited c => (CResult.exited c, rest2)) (rest.2.1, rest.2.2) with
    | CResult.ok ((newL2, mv), restNew) => (CResult.ok mv, (newL2, restNew.1, restNew.2))
    | CResult.panicked p => (CResult.panicked p, rest)
    | CResult.exited c => (CResult.exited c, rest)) (v2, v3, v4)

/-- Expansion of `take_multi!` on five locations (src/lib.rs). -/
def take_multi_5 {T1 T2 T3 T4 T5 : Type} (v1 : T1) (v2 : T2) (v3 : T3)
    (v4 : T4) (v5 : T5)
    (f : T1 → T2 → T3 → T4 → T5 → CResult (T1 × T2 × T3 × T4 × T5)) :
    CResult (T1 × T2 × T3 × T4 × T5) :=
  take v1 (fun b1 (rest : T2 × T3 × T4 × T5) =>
    match take_used_for_macros_1 rest.1 (fun b2 (r2 : T3 × T4 × T5) =>
        match take_used_for_macros_2 r2.1 (fun b3 (r3 : T4 × T5) =>
            match take_used_for_macros_3 r3.1 (fun b4 (loc5 : T5) =>
                match take_used_for_macros_4 loc5 (fun b5 (u : Unit) =>
                    (match f b1 b2 b3 b4 b5 with
                     | CResult.ok (n1, n2, n3, n4, n5) => CResult.ok (n5, n1, n2, n3, n4)
                     | CResult.panicked p => CResult.panicked p
                     | CResult.exited c => CResult.exited c, u)) () with
                | CResult.ok ((newL5, s1, s2, s3, s4), _) =>
                    (CResult.ok (s4, s1, s2, s3), newL5)
                | CResult.panicked p => (CResult.panicked p, loc5)
                | CResult.exited c => (CResult.exited c, loc5)) r3.2 with
            | CResult.ok ((newL4, q1, q2, q3), newL5) =>
                (CResult.ok (q3, q1, q2), (newL4, newL5))
            | CResult.panicked p => (CResult.panicked p, r3)
            | CResult.exited c => (CResult.exited c, r3)) r2.2 with
        | CResult.ok ((newL3, p1, p2), rNew) => (CResult.ok (p2, p1), (newL3, rNew))
        | CResult.panicked p => (CResult.panicked p, r2)
        | CResult.exited c => (CResult.exited c, r2)) rest.2 with
    | CResult.ok ((newL2, mv), rNew2) => (CResult.ok mv, (newL2, rNew2))
    | CResult.panicked p => (CResult.panicked p, rest)
    | CResult.exited c => (CResult.exited c, rest)) (v2, v3, v4, v5)

/-!
The spec side of the refinement claim P6: `k` manually nested single-slot
takes (plain `take` only), with the same computation split accordingly.  The
innermost closure runs the computation and returns the last location's
replacement; the earlier locations' replacements are smuggled outward through
each enclosing closure's captured environment in an `Option` slot, unwrapped
by the enclosing level (the idiomatic manual nesting; the unwrap panics on an
empty slot, which is unreachable because the slot is set whenever the inner
take returns normally). -/

/-- Modelled from the spec: two manually nested single-slot `take`s (P6,
§4.5) — the multi-slot wrapper for `k = 2` must be observably equivalent to
this. -/
def nested_take_2 {T1 T2 : Type} (v1 : T1) (v2 : T2)
    (f : T1 → T2 → CResult (T1 × T2)) : CResult (T1 × T2) :=
  take v1 (fun b1 (loc2 : T2) =>
    match take loc2 (fun b2 (slot : Option T1) =>
        match f b1 b2 with
        | CResult.ok (n1, n2) => (CResult.ok n2, some n1)
        | CResult.panicked p => (CResult.panicked p, slot)
        | CResult.exited c => (CResult.exited c, slot)) none with
    | CResult.ok (newL2, some n1) => (CResult.ok n1, newL2)
    | CResult.ok (newL2, none) =>
        (CResult.panicked (Panic.msg "called Option::unwrap on a None value"), newL2)
    | CResult.panicked p => (CResult.panicked p, loc2)
    | CResult.exited c => (CResult.exited c, loc2)) v2

/-- Modelled from the spec: three manually nested single-slot `take`s (P6,
§4.5). -/
def nested_take_3 {T1 T2 T3 : Type} (v1 : T1) (v2 : T2) (v3 : T3)
    (f : T1 → T2 → T3 → CResult (T1 × T2 × T3)) : CResult (T1 × T2 × T3) :=
  take v1 (fun b1 (rest : T2 × T3) =>
    match take rest.1 (fun b2 (s2 : T3 × Option T1) =>
        match take s2.1 (fun b3 (slot : Option (T1 × T2)) =>
            match f b1 b2 b3 with
            | CResult.ok (n1, n2, n3) => (CResult.ok n3, some (n1, n2))
            | CResult.panicked p => (CResult.panicked p, slot)
            | CResult.exited c => (CResult.exited c, slot)) none with
        | CResult.ok (newL3, some (n1, n2)) => (CResult.ok n2, (newL3, some n1))
        | CResult.ok (newL3, none) =>
            (CResult.panicked (Panic.msg "called Option::unwrap on a None value"),
              (newL3, s2.2))
        | CResult.panicked p => (CResult.panicked p, s2)
        | CResult.exited c => (CResult.exited c, s2)) (rest.2, none) with
    | CResult.ok (newL2, (newL3, some n1)) => (CResult.ok n1, (newL2, newL3))
    | CResult.ok (newL2, (newL3, none)) =>
        (CResult.panicked (Panic.msg "called Option::unwrap on a None value"),
          (newL2, newL3))
    | CResult.panicked p => (CResult.panicked p, rest)
    | CResult.exited c => (CResult.exited c, rest)) (v2, v3)

/-- Modelled from the spec: four manually nested single-slot `take`s (P6,
§4.5). -/
def nested_take_4 {T1 T2 T3 T4 : Type} (v1 : T1) (v2 : T2) (v3 : T3) (v4 : T4)
    (f : T1 → T2 → T3 → T4 → CResult (T1 × T2 × T3 × T4)) :
    CResult (T1 × T2 × T3 × T4) :=
  take v1 (fun b1 (rest : T2 × T3 × T4) =>
    match take rest.1 (fun b2 (s2 : (T3 × T4) × Option T1) =>
        match take s2.1.1 (fun b3 (s3 : T4 × Option (T1 × T2)) =>
            match take s3.1 (fun b4 (slot : Option (T1 × T2 × T3)) =>
                match f b1 b2 b3 b4 with
                | CResult.ok (n1, n2, n3, n4) => (CResult.ok n4, some (n1, n2, n3))
                | CResult.panicked p => (CResult.panicked p, slot)
                | CResult.exited c => (CResult.exited c, slot)) none with
            | CResult.ok (newL4, some (n1, n2, n3)) =>
                (CResult.ok n3, (newL4, some (n1, n2)))
            | CResult.ok (newL4, none) =>
                (CResult.panicked (Panic.msg "called Option::unwrap on a None value"),
                  (newL4, s3.2))
            | CResult.panicked p => (CResult.panicked p, s3)
            | CResult.exited c => (CResult.exited c, s3)) (s2.1.2, none) with
        | CResult.ok (newL3, (newL4, some (n1, n2))) =>
            (CResult.ok n2, ((newL3, newL4), some n1))
        | CResult.ok (newL3, (newL4, none)) =>
            (CResult.panicked (Panic.msg "called Option::unwrap on a None value"),
              ((newL3, newL4), s2.2))
        | CResult.panicked p => (CResult.panicked p, s2)
        | CResult.exited c => (CResult.exited c, s2)) ((rest.2.1, rest.2.2), none) with
    | CResult.ok (newL2, ((newL3, newL4), some n1)) =>
        (CResult.ok n1, (newL2, newL3, newL4))
    | CResult.ok (newL2, ((newL3, newL4), none)) =>
        (CResult.panicked (Panic.msg "called Option::unwrap on a None value"),
          (newL2, newL3, newL4))
    | CResult.panicked p => (CResult.panicked p, rest)
    | CResult.exited c => (CResult.exited c, rest)) (v2, v3, v4)

/-- Modelled from the spec: five manually nested single-slot `take`s (P6,
§4.5). -/
def nested_take_5 {T1 T2 T3 T4 T5 : Type} (v1 : T1) (v2 : T2) (v3 : T3)
    (v4 : T4) (v5 : T5)
    (f : T1 → T2 → T3 → T4 → T5 → CResult (T1 × T2 × T3 × T4 × T5)) :
    CResult (T1 × T2 × T3 × T4 × T5) :=
  take v1 (fun b1 (rest : T2 × T3 × T4 × T5) =>
    match take rest.1 (fun b2 (s2 : (T3 × T4 × T5) × Option T1) =>
        match take s2.1.1 (fun b3 (s3 : (T4 × T5) × Option (T1 × T2)) =>
            match take s3.1.1 (fun b4 (s4 : T5 × Option (T1 × T2 × T3)) =>
                match take s4.1 (fun b5 (slot : Option (T1 × T2 × T3 × T4)) =>
                    match f b1 b2 b3 b4 b5 with
                    | CResult.ok (n1, n2, n3, n4, n5) =>
                        (CResult.ok n5, some (n1, n2, n3, n4))
                    | CResult.panicked p => (CResult.panicked p, slot)
                    | CResult.exited c => (CResult.exited c, slot)) none with
                | CResult.ok (newL5, some (n1, n2, n3, n4)) =>
                    (CResult.ok n4, (newL5, some (n1, n2, n3)))
                | CResult.ok (newL5, none) =>
                    (CResult.panicked
                        (Panic.msg "called Option::unwrap on a None value"),
                      (newL5, s4.2))
                | CResult.panicked p => (CResult.panicked p, s4)
                | CResult.exited c => (CResult.exited c, s4)) (s3.1.2, none) with
            | CResult.ok (newL4, (newL5, some (n1, n2, n3))) =>
                (CResult.ok n3, ((newL4, newL5), some (n1, n2)))
            | CResult.ok (newL4, (newL5, none)) =>
                (CResult.panicked (Panic.msg "called Option::unwrap on a None value"),
                  ((newL4, newL5), s3.2))
            | CResult.panicked p => (CResult.panicked p, s3)
            | CResult.exited c => (CResult.exited c, s3)) ((s2.1.2.1, s2.1.2.2), none) with
        | CResult.ok (newL3, ((newL4, newL5), some (n1, n2))) =>
            (CResult.ok n2, ((newL3, newL4, newL5), some n1))
        | CResult.ok (newL3, ((newL4, newL5), none)) =>
            (CResult.panicked (Panic.msg "called Option::unwrap on a None value"),
              ((newL3, newL4, newL5), s2.2))
        | CResult.panicked p => (CResult.panicked p, s2)
        | CResult.exited c => (CResult.exited c, s2))
        ((rest.2.1, rest.2.2.1, rest.2.2.2), none) with
    | CResult.ok (newL2, ((newL3, newL4, newL5), some n1)) =>
        (CResult.ok n1, (newL2, newL3, newL4, newL5))
    | CResult.ok (newL2, ((newL3, newL4, newL5), none)) =>
        (CResult.panicked (Panic.msg "called Option::unwrap on a None value"),
          (newL2, newL3, newL4, newL5))
    | CResult.panicked p => (CResult.panicked p, rest)
    | CResult.exited c => (CResult.exited c, rest)) (v2, v3, v4, v5)

/-- C8: for every k with 2 ≤ k ≤ 5, the multi-slot wrapper `take_multi!` on k
locations is observably equivalent to k manually nested single-slot `take`s
with the same computation split accordingly — the two programs produce the
same outcome (same final location contents, same panic-to-exit behaviour) for
every computation, and for every computation that returns normally every
location ends up holding its corresponding replacement value. -/
theorem take_multi_equiv_nested :
    (∀ (T1 T2 : Type) (v1 : T1) (v2 : T2) (f : T1 → T2 → CResult (T1 × T2)),
      take_multi_2 v1 v2 f = nested_take_2 v1 v2 f) ∧
    (∀ (T1 T2 : Type) (v1 : T1) (v2 : T2) (g : T1 → T2 → T1 × T2),
      take_multi_2 v1 v2 (fun a b => CResult.ok (g a b)) = CResult.ok (g v1 v2)) ∧
    (∀ (T1 T2 T3 : Type) (v1 : T1) (v2 : T2) (v3 : T3)
      (f : T1 → T2 → T3 → CResult (T1 × T2 × T3)),
      take_multi_3 v1 v2 v3 f = nested_take_3 v1 v2 v3 f) ∧
    (∀ (T1 T2 T3 : Type) (v1 : T1) (v2 : T2) (v3 : T3)
      (g : T1 → T2 → T3 → T1 × T2 × T3),
      take_multi_3 v1 v2 v3 (fun a b c => CResult.ok (g a b c)) =
        CResult.ok (g v1 v2 v3)) ∧
    (∀ (T1 T2 T3 T4 : Type) (v1 : T1) (v2 : T2) (v3 : T3) (v4 : T4)
      (f : T1 → T2 → T3 → T4 → CResult (T1 × T2 × T3 × T4)),
      take_multi_4 v1 v2 v3 v4 f = nested_take_4 v1 v2 v3 v4 f) ∧
    (∀ (T1 T2 T3 T4 : Type) (v1 : T1) (v2 : T2) (v3 : T3) (v4 : T4)
      (g : T1 → T2 → T3 → T4 → T1 × T2 × T3 × T4),
      take_multi_4 v1 v2 v3 v4 (fun a b c d => CResult.ok (g a b c d)) =
        CResult.ok (g v1 v2 v3 v4)) ∧
    (∀ (T1 T2 T3 T4 T5 : Type) (v1 : T1) (v2 : T2) (v3 : T3) (v4 : T4) (v5 : T5)
      (f : T1 → T2 → T3 → T4 → T5 → CResult (T1 × T2 × T3 × T4 × T5)),
      take_multi_5 v1 v2 v3 v4 v5 f = nested_take_5 v1 v2 v3 v4 v5 f) ∧
    (∀ (T1 T2 T3 T4 T5 : Type) (v1 : T1) (v2 : T2) (v3 : T3) (v4 : T4) (v5 : T5)
      (g : T1 → T2 → T3 → T4 → T5 → T1 × T2 × T3 × T4 × T5),
      take_multi_5 v1 v2 v3 v4 v5 (fun a b c d e => CResult.ok (g a b c d e)) =
        CResult.ok (g v1 v2 v3 v4 v5)) := by
  refine ⟨?_, ?_, ?_, ?_, ?_, ?_, ?_, ?_⟩
  · intro T1 T2 v1 v2 f
    rcases hf : f v1 v2 with ⟨n1, n2⟩ | p | c <;>
      simp [take_multi_2, nested_take_2, take, take_used_for_macros_1,
        exit_on_panic, hf]
  · intro T1 T2 v1 v2 g
    rcases hg : g v1 v2 with ⟨n1, n2⟩
    simp [take_multi_2, take, take_used_for_macros_1, exit_on_panic, hg]
  · intro T1 T2 T3 v1 v2 v3 f
    rcases hf : f v1 v2 v3 with ⟨n1, n2, n3⟩ | p | c <;>
      simp [take_multi_3, nested_take_3, take, take_used_for_macros_1,
        take_used_for_macros_2, exit_on_panic, hf]
  · intro T1 T2 T3 v1 v2 v3 g
    rcases hg : g v1 v2 v3 with ⟨n1, n2, n3⟩
    simp [take_multi_3, take, take_used_for_macros_1, take_used_for_macros_2,
      exit_on_panic, hg]
  · intro T1 T2 T3 T4 v1 v2 v3 v4 f
    rcases hf : f v1 v2 v3 v4 with ⟨n1, n2, n3, n4⟩ | p | c <;>
      simp [take_multi_4, nested_take_4, take, take_used_for_macros_1,
        take_used_for_macros_2, take_used_for_macros_3, exit_on_panic, hf]
  · intro T1 T2 T3 T4 v1 v2 v3 v4 g
    rcases hg : g v1 v2 v3 v4 with ⟨n1, n2, n3, n4⟩
    simp [take_multi_4, take, take_used_for_macros_1, take_used_for_macros_2,
      take_used_for_macros_3, exit_on_panic, hg]
  · intro T1 T2 T3 T4 T5 v1 v2 v3 v4 v5 f
    rcases hf : f v1 v2 v3 v4 v5 with ⟨n1, n2, n3, n4, n5⟩ | p | c <;>
      simp [take_multi_5, nested_take_5, take, take_used_for_macros_1,
        take_used_for_macros_2, take_used_for_macros_3, take_used_for_macros_4,
        exit_on_panic, hf]
  · intro T1 T2 T3 T4 T5 v1 v2 v3 v4 v5 g
    rcases hg : g v1 v2 v3 v4 v5 with ⟨n1, n2, n3, n4, n5⟩
    simp [take_multi_5, take, take_used_for_macros_1, take_used_for_macros_2,
      take_used_for_macros_3, take_used_for_macros_4, exit_on_panic, hg]
